import Mathlib

/-!
Shallow embedding of the QMDJ chart generation engine
(`qmdj_agent/tools/chart_generator/qimen_generator.py` and the
`qmdj_chart_api` wrapper in `qmdj_agent/tools/qimen.py`).

Python values are modelled as follows: `str` becomes `String`,
`dict` becomes an insertion-ordered association list `List (key × value)`
(first binding wins on lookup, mirroring CPython's insertion-ordered
dicts where no key is bound twice), `d.get(k, default)` becomes
`(l.lookup k).getD default`, Python's `%` on possibly negative ints
becomes `Int.emod`, and the substring test `needle in hay` becomes
`pyIn needle hay`.  Fallible steps (a `dict[k]` indexing that can raise
`KeyError`) are modelled in the `Option` monad.
-/

/-- Python's `needle in hay` substring containment on strings. -/
def pyIn (needle hay : String) : Bool :=
  hay.toList.tails.any (fun t => needle.toList.isPrefixOf t)

/-- `d.get(k, "")` on a string-valued dict. -/
def getSD {α : Type} [BEq α] (m : List (α × String)) (k : α) : String :=
  (m.lookup k).getD ""

-- ## Constants of `QimenGenerator`

/-- The 10 heavenly stems (`TIAN_GAN`). -/
def TIAN_GAN : List String :=
  ["甲", "乙", "丙", "丁", "戊", "己", "庚", "辛", "壬", "癸"]

/-- The 12 earthly branches (`DI_ZHI`). -/
def DI_ZHI : List String :=
  ["子", "丑", "寅", "卯", "辰", "巳", "午", "未", "申", "酉", "戌", "亥"]

/-- `PALACE_NAMES`, indexed 1-9 with a dummy entry at 0. -/
def PALACE_NAMES : List String :=
  ["", "坎", "坤", "震", "巽", "中", "乾", "兑", "艮", "离"]

/-- Clockwise spatial rotation path over the 8 non-center palaces
(`ROTATION_PATH`). -/
def ROTATION_PATH : List Nat := [1, 8, 3, 4, 9, 2, 7, 6]

/-- Yang Dun order of the 8 deities (`DEITIES`). -/
def DEITIES : List String :=
  ["值符", "腾蛇", "太阴", "六合", "白虎", "玄武", "九地", "九天"]

/-- Fixed palace→star table (`STAR_MAP` in `_generate_plates`). -/
def STAR_MAP : List (Nat × String) :=
  [(1, "天蓬"), (2, "天芮"), (3, "天冲"), (4, "天辅"), (5, "天禽"),
   (6, "天心"), (7, "天柱"), (8, "天任"), (9, "天英")]

/-- Fixed palace→door table (`DOOR_MAP` in `_generate_plates`). -/
def DOOR_MAP : List (Nat × String) :=
  [(1, "休门"), (2, "死门"), (3, "伤门"), (4, "杜门"), (5, ""),
   (6, "开门"), (7, "惊门"), (8, "生门"), (9, "景门")]

/-- Standard 8-star ring (`STD_STAR_RING`), omitting 天禽. -/
def STD_STAR_RING : List String :=
  ["天蓬", "天任", "天冲", "天辅", "天英", "天芮", "天柱", "天心"]

/-- Standard 8-door ring (`STD_DOOR_RING`). -/
def STD_DOOR_RING : List String :=
  ["休门", "生门", "伤门", "杜门", "景门", "死门", "惊门", "开门"]

/-- Xun-Shou-branch → lead stem table (`XUN_MAP`). -/
def XUN_MAP : List (String × String) :=
  [("子", "戊"), ("戌", "己"), ("申", "庚"), ("午", "辛"), ("辰", "壬"), ("寅", "癸")]

/-- Branch → home palace table (`BRANCH_TO_PALACE`). -/
def BRANCH_TO_PALACE : List (String × Nat) :=
  [("子", 1), ("丑", 8), ("寅", 8), ("卯", 3), ("辰", 4), ("巳", 4),
   ("午", 9), ("未", 2), ("申", 2), ("酉", 7), ("戌", 6), ("亥", 6)]

/-- Xun-Shou-branch → empty branches table (`EMPTY_MAP` in `_calc_empty_death`). -/
def EMPTY_MAP : List (String × String) :=
  [("子", "戌亥"), ("戌", "申酉"), ("申", "午未"),
   ("午", "辰巳"), ("辰", "寅卯"), ("寅", "子丑")]

/-- The 12 solar terms listed as Yang Dun (`YANG_DUN_JQ` in `_calc_ju`);
note 驚蟄, 穀雨, 小滿, 芒種 appear here in traditional characters. -/
def YANG_DUN_JQ : List String :=
  ["冬至", "小寒", "大寒", "立春", "雨水", "驚蟄",
   "春分", "清明", "穀雨", "立夏", "小滿", "芒種"]

/-- The 24-entry solar-term → Ju-numbers table (`JU_MAP` in `_calc_ju`);
惊蛰, 谷雨, 小满, 芒种 appear here in simplified characters. -/
def JU_MAP : List (String × List Nat) :=
  [("冬至", [1, 7, 4]), ("小寒", [2, 8, 5]), ("大寒", [3, 9, 6]),
   ("立春", [8, 5, 2]), ("雨水", [9, 6, 3]), ("惊蛰", [1, 7, 4]),
   ("春分", [3, 9, 6]), ("清明", [4, 1, 7]), ("谷雨", [5, 2, 8]),
   ("立夏", [4, 1, 7]), ("小满", [5, 2, 8]), ("芒种", [6, 3, 9]),
   ("夏至", [9, 3, 6]), ("小暑", [8, 2, 5]), ("大暑", [7, 1, 4]),
   ("立秋", [2, 5, 8]), ("处暑", [1, 4, 7]), ("白露", [9, 3, 6]),
   ("秋分", [7, 1, 4]), ("寒露", [6, 9, 3]), ("霜降", [5, 8, 2]),
   ("立冬", [6, 9, 3]), ("小雪", [5, 8, 2]), ("大雪", [4, 7, 1])]

-- ## `_calc_base_info` (Fu Tou and Yuan)

/-- Result of the Yuan part of `_calc_base_info`. -/
structure BaseInfo where
  futouGan : String
  futouZhi : String
  yuan : String
  yuanIdx : Nat
deriving DecidableEq

/-- The Fu Tou / Yuan computation of `_calc_base_info`, from the day
pillar's stem index and branch index. -/
def calcBase (dayG dayZ : Nat) : BaseInfo :=
  let diff : Nat := if dayG < 5 then dayG else dayG - 5
  let futouGan : String := if dayG < 5 then "甲" else "己"
  let fzIdx : Nat := (((dayZ : Int) - (diff : Int)) % 12).toNat
  let futouZhi : String := DI_ZHI.getD fzIdx ""
  if pyIn futouZhi "子午卯酉" then
    ⟨futouGan, futouZhi, "上元", 1⟩
  else if pyIn futouZhi "寅申巳亥" then
    ⟨futouGan, futouZhi, "中元", 2⟩
  else
    ⟨futouGan, futouZhi, "下元", 3⟩

-- ## `_calc_ju` (Yin/Yang Dun and Ju number)

/-- `_calc_ju`: the Yin/Yang Dun label and the Ju number, from the solar
term name and the Yuan index. -/
def calcJu (jieQi : String) (yuanIdx : Nat) : String × Nat :=
  let yy : String := if YANG_DUN_JQ.contains jieQi then "阳" else "阴"
  let ju : Nat :=
    match JU_MAP.lookup jieQi with
    | some l => l.getD (yuanIdx - 1) 0
    | none => 1
  (yy, ju)

-- ## `_calc_horse_star` and `_calc_empty_death`

/-- `_calc_horse_star`, as a function of the hour branch. -/
def calcHorse (hZhi : String) : String :=
  if pyIn hZhi "申子辰" then "寅"
  else if pyIn hZhi "寅午戌" then "申"
  else if pyIn hZhi "巳酉丑" then "亥"
  else if pyIn hZhi "亥卯未" then "巳"
  else ""

/-- `_calc_empty_death`, as a function of the hour pillar's stem index
and branch index. -/
def calcEmptyDeath (g z : Nat) : String :=
  let xunIdx : Nat := (((z : Int) - (g : Int)) % 12).toNat
  getSD EMPTY_MAP (DI_ZHI.getD xunIdx "")

-- ## Earth plate (`_generate_plates`, step 1)

/-- The 9-stem layout sequence `pai_gan` of `_generate_plates`
(甲 does not appear). -/
def paiGan : List String :=
  ["戊", "己", "庚", "辛", "壬", "癸", "丁", "丙", "乙"]

/-- One step of the Earth-Plate walk: `+1` wrapping above 9 back to 1
under Yang Dun, `-1` wrapping below 1 back to 9 under Yin Dun. -/
def stepPos (yinYang : String) (p : Nat) : Nat :=
  if yinYang = "阳" then (if p + 1 > 9 then 1 else p + 1)
  else (if p - 1 < 1 then 9 else p - 1)

/-- The Earth-Plate building loop: place each stem of the sequence at the
current palace, then advance. -/
def buildEarth : List String → Nat → String → List (Nat × String)
  | [], _, _ => []
  | s :: rest, p, yy => (p, s) :: buildEarth rest (stepPos yy p) yy

/-- The Earth Plate (`earth_plate`): dict palace → stem, seeded at the Ju
number. -/
def earthPlate (juNum : Nat) (yinYang : String) : List (Nat × String) :=
  buildEarth paiGan juNum yinYang

-- ## `_generate_plates` (steps 2-5)

/-- First palace of the plate holding the given stem, 0 when absent
(the `for loc, stem in earth_plate.items(): ... break` search). -/
def findLoc (plate : List (Nat × String)) (stem : String) : Nat :=
  ((plate.find? (fun e => e.2 == stem)).map (fun e => e.1)).getD 0

/-- First palace natively holding the given star in `STAR_MAP`, 0 when
absent (the `for k, v in STAR_MAP.items(): ... break` search). -/
def findHome (star : String) : Nat :=
  ((STAR_MAP.find? (fun e => e.2 == star)).map (fun e => e.1)).getD 0

/-- The `while dest_door_loc > 9: dest_door_loc -= 9` loop, with an
explicit iteration budget (each pass subtracts 9, so a budget of `d`
iterations can never be exhausted before the guard fails). -/
def wrapDown (fuel d : Nat) : Nat :=
  match fuel with
  | 0 => d
  | fuel + 1 => if d > 9 then wrapDown fuel (d - 9) else d

/-- The `while dest_door_loc < 1: dest_door_loc += 9` loop, with an
explicit iteration budget (each pass adds 9, so a budget of `(1 - d)⁺`
iterations can never be exhausted before the guard fails). -/
def wrapUp (fuel : Nat) (d : Int) : Int :=
  match fuel with
  | 0 => d
  | fuel + 1 => if d < 1 then wrapUp fuel (d + 9) else d

/-- The branch at index `(z - g) mod 12`: the Xun Shou branch computed in
`_generate_plates` (and again in `_calc_empty_death`). -/
def xunZhiOf (g z : Nat) : String :=
  DI_ZHI.getD (((z : Int) - (g : Int)) % 12).toNat ""

/-- A `try: idx = lst.index(x) except ValueError: idx = dflt` computation:
the found index, or the fallback value. -/
def matchIdx (o : Option Nat) (dflt : Nat) : Nat :=
  match o with
  | some i => i
  | none => dflt

/-- The common shape of the three rotation loops: for `i` in 0..7, place
`ring[(ringStart + i) % 8]` at palace `ROTATION_PATH[(pathStart + i) % 8]`. -/
def layoutRing (pathStart ringStart : Nat) (ring : List String) : List (Nat × String) :=
  (List.range 8).map (fun i =>
    (ROTATION_PATH.getD ((pathStart + i) % 8) 0, ring.getD ((ringStart + i) % 8) ""))

/-- The deity loop under Yang Dun: deity `i` at palace
`ROTATION_PATH[(idx + i) % 8]`. -/
def deityLoopYang (idx : Nat) : List (Nat × String) :=
  (List.range 8).map (fun i =>
    (ROTATION_PATH.getD ((idx + i) % 8) 0, DEITIES.getD i ""))

/-- The deity loop under Yin Dun: deity `i` at palace
`ROTATION_PATH[(idx - i) % 8]` (Python's mod on a negative value). -/
def deityLoopYin (idx : Nat) : List (Nat × String) :=
  (List.range 8).map (fun (i : Nat) =>
    (ROTATION_PATH.getD ((((idx : Int) - (i : Int)) % 8).toNat) 0, DEITIES.getD i ""))

/-- The `heaven_stem_plate` loop: each placed star carries the earth stem
of its original home palace; the 天芮 slot additionally appends the
center palace's earth stem. -/
def heavenStemLoop (earth : List (Nat × String)) (startIdx targetRotIdx : Nat) :
    List (Nat × String) :=
  (List.range 8).map (fun i =>
    let star := STD_STAR_RING.getD ((startIdx + i) % 8) ""
    let palNum := ROTATION_PATH.getD ((targetRotIdx + i) % 8) 0
    let origHome0 := findHome star
    let origHome := if star = "天芮" then 2 else origHome0
    let stemVal := getSD earth origHome
    if star = "天芮" then (palNum, stemVal ++ getSD earth 5)
    else (palNum, stemVal))

/-- All data computed by `_generate_plates`, including the intermediate
indices the loops are seeded with. -/
structure Plates where
  earth : List (Nat × String)
  xunShouZhi : String
  xunShou : String
  leadStem : String
  leadLoc : Nat
  zhiFu : String
  zhiShi : String
  targetLoc : Nat
  startIdx : Nat
  targetRotIdx : Nat
  diffHours : Nat
  destDoorLoc : Nat
  finalDoorRotIdx : Nat
  startDoorIdx : Nat
  deityRotIdx : Nat
  heaven : List (Nat × String)
  heavenStem : List (Nat × String)
  man : List (Nat × String)
  deity : List (Nat × String)
deriving DecidableEq

/-- The infallible tail of `_generate_plates`, once the three dict
indexings (`XUN_MAP[...]`, `STAR_MAP[lead_loc]`, `DOOR_MAP[lead_loc]`)
have succeeded with values `leadStem`, `zhiFu0`, `zhiShi0`. -/
def platesCore (juNum : Nat) (yinYang : String) (g z : Nat)
    (leadStem zhiFu0 zhiShi0 : String) : Plates :=
  let earth := earthPlate juNum yinYang
  let hGan := TIAN_GAN.getD g ""
  let hZhi := DI_ZHI.getD z ""
  let xunShouZhi := xunZhiOf g z
  let xunShou := "甲" ++ xunShouZhi ++ leadStem
  let leadLoc := findLoc earth leadStem
  let zhiFu := if leadLoc = 5 then "天禽" else zhiFu0
  let zhiShi := if leadLoc = 5 then "死门" else zhiShi0
  let targetStem := if hGan = "甲" then leadStem else hGan
  let targetLoc := findLoc earth targetStem
  let zfName := if zhiFu = "天禽" then "天芮" else zhiFu
  let startIdx := matchIdx (STD_STAR_RING.indexOf? zfName) 5
  let targetRotIdx := matchIdx (ROTATION_PATH.indexOf? targetLoc)
    (if targetLoc = 5 then ROTATION_PATH.indexOf 2 else 0)
  let heaven := layoutRing targetRotIdx startIdx STD_STAR_RING ++ [(5, "")]
  let heavenStem := heavenStemLoop earth startIdx targetRotIdx
  let xsZhiIdx := DI_ZHI.indexOf xunShouZhi
  let currHIdx := DI_ZHI.indexOf hZhi
  let diffHours : Nat := (((currHIdx : Int) - (xsZhiIdx : Int)) % 12).toNat
  let destDoorLoc :=
    if yinYang = "阳" then
      let d := wrapDown (leadLoc + diffHours) (leadLoc + diffHours)
      if d = 0 then 9 else d
    else
      let d0 : Int := (leadLoc : Int) - (diffHours : Int)
      (wrapUp (1 - d0).toNat d0).toNat
  let finalDoorRotIdx := matchIdx (ROTATION_PATH.indexOf? destDoorLoc)
    (ROTATION_PATH.indexOf 2)
  let startDoorIdx := matchIdx (STD_DOOR_RING.indexOf? zhiShi) 0
  let man := layoutRing finalDoorRotIdx startDoorIdx STD_DOOR_RING ++ [(5, "")]
  let deityRotIdx := matchIdx (ROTATION_PATH.indexOf? targetLoc) 0
  let deity :=
    (if yinYang = "阳" then deityLoopYang deityRotIdx
     else deityLoopYin deityRotIdx) ++ [(5, "")]
  ⟨earth, xunShouZhi, xunShou, leadStem, leadLoc, zhiFu, zhiShi, targetLoc,
   startIdx, targetRotIdx, diffHours, destDoorLoc, finalDoorRotIdx,
   startDoorIdx, deityRotIdx, heaven, heavenStem, man, deity⟩

/-- `_generate_plates`: the three fallible dict indexings in sequence
(`KeyError` modelled as `none`), then the infallible tail. -/
def generatePlates (juNum : Nat) (yinYang : String) (g z : Nat) : Option Plates := do
  let leadStem ← XUN_MAP.lookup (xunZhiOf g z)
  let leadLoc := findLoc (earthPlate juNum yinYang) leadStem
  let zhiFu0 ← STAR_MAP.lookup leadLoc
  let zhiShi0 ← DOOR_MAP.lookup leadLoc
  some (platesCore juNum yinYang g z leadStem zhiFu0 zhiShi0)

-- ## `_format_output`

/-- One palace's output record. -/
structure PalaceData where
  palaceName : String
  earthStem : String
  heavenStem : String
  star : String
  door : String
  deity : String
  markers : List String
  allSymbols : List String
deriving DecidableEq

/-- The lodged-palace search of `_format_output`: the first palace
1-9 other than 5 whose heaven stem contains the center's earth stem,
0 when none qualifies. -/
def findLodged (heavenStem : List (Nat × String)) (centerStem : String) : Nat :=
  (((List.range' 1 9).filter (fun i => i != 5)).find?
    (fun i => pyIn centerStem (getSD heavenStem i))).getD 0

/-- The per-palace assembly of `_format_output`. -/
def palaceEntry (P : Plates) (horsePalace : Option Nat)
    (emptyPalaces : List (Option Nat)) (lodged : Nat) (i : Nat) : PalaceData :=
  let markers : List String :=
    (if horsePalace == some i then ["馬"] else []) ++
    (if emptyPalaces.contains (some i) then ["空"] else [])
  if i = 5 ∧ lodged ≠ 0 then
    let pHStem := getSD P.heavenStem lodged
    let pStar := getSD P.heaven lodged
    let pDoor := getSD P.man lodged
    let pDeity := getSD P.deity lodged
    let pMarkers : List String :=
      (if horsePalace == some lodged then ["馬"] else []) ++
      (if emptyPalaces.contains (some lodged) then ["空"] else [])
    { palaceName := PALACE_NAMES.getD i ""
      earthStem := getSD P.earth i
      heavenStem := pHStem
      star := pStar
      door := pDoor
      deity := pDeity
      markers := pMarkers
      allSymbols := [pHStem, pDoor, pDeity, pStar, getSD P.earth i] }
  else
    { palaceName := PALACE_NAMES.getD i ""
      earthStem := getSD P.earth i
      heavenStem := getSD P.heavenStem i
      star := getSD P.heaven i
      door := getSD P.man i
      deity := getSD P.deity i
      markers := markers
      allSymbols := [getSD P.heavenStem i, getSD P.man i, getSD P.deity i,
                     getSD P.heaven i, getSD P.earth i] }

/-- The `palaces` map built by `_format_output`. -/
def formatOutput (P : Plates) (horse emptyDeath : String) :
    List (Nat × PalaceData) :=
  let horsePalace := BRANCH_TO_PALACE.lookup horse
  let emptyPalaces := emptyDeath.toList.map
    (fun b => BRANCH_TO_PALACE.lookup b.toString)
  let centerStem := getSD P.earth 5
  let lodged := findLodged P.heavenStem centerStem
  (List.range' 1 9).map (fun i => (i, palaceEntry P horsePalace emptyPalaces lodged i))

-- ## `generate` (without the external Calendar Adapter)

/-- The full chart record returned by `generate` (the deterministic part;
the formatted date string and timezone are omitted as pure echo fields). -/
structure Chart where
  solarTerm : String
  yuan : String
  yinYang : String
  juNum : Nat
  xunShou : String
  zhiFu : String
  zhiShi : String
  horseStar : String
  emptyDeath : String
  palaces : List (Nat × PalaceData)
deriving DecidableEq

/-- `generate`, downstream of the Calendar Adapter: from the solar term
name, the day pillar's stem/branch indices and the hour pillar's
stem/branch indices. -/
def generateChart (jieQi : String) (dayG dayZ g z : Nat) : Option Chart :=
  let base := calcBase dayG dayZ
  let horse := calcHorse (DI_ZHI.getD z "")
  let emptyD := calcEmptyDeath g z
  let yyju := calcJu jieQi base.yuanIdx
  (generatePlates yyju.2 yyju.1 g z).map (fun P =>
    { solarTerm := jieQi, yuan := base.yuan, yinYang := yyju.1,
      juNum := yyju.2, xunShou := P.xunShou, zhiFu := P.zhiFu,
      zhiShi := P.zhiShi, horseStar := horse, emptyDeath := emptyD,
      palaces := formatOutput P horse emptyD })

-- ## Decidability helper

/-- Deciding an existential over the payload of a concrete `Option`. -/
instance decExistsEqSome {α : Type} {Q : α → Prop} [DecidablePred Q] :
    (o : Option α) → Decidable (∃ a, o = some a ∧ Q a)
  | none => isFalse (by rintro ⟨a, h, -⟩; exact Option.noConfusion h)
  | some a =>
    if h : Q a then isTrue ⟨a, rfl, h⟩
    else isFalse (by rintro ⟨b, hb, hq⟩; cases Option.some.inj hb; exact h hq)

-- ## Spec-side definitions (written from the specification's wording,
-- to be compared against the code-side functions above)

/-- Spec 4.2: the Fu Tou offset — the day stem's index when it is below 5,
else the index minus 5. -/
def specFuTouOffset (dayG : Nat) : Nat :=
  if dayG < 5 then dayG else dayG - 5

/-- Spec 4.2: the Fu Tou stem — the 1st stem when the day stem's index is
below 5, else the 6th stem. -/
def specFuTouGan (dayG : Nat) : String :=
  if dayG < 5 then TIAN_GAN.getD 0 "" else TIAN_GAN.getD 5 ""

/-- Spec 4.2: the Fu Tou branch index — day branch index minus the offset,
mod 12. -/
def specFuTouZhiIdx (dayG dayZ : Nat) : Nat :=
  (((dayZ : Int) - (specFuTouOffset dayG : Int)) % 12).toNat

/-- Spec 4.2: Yuan index 1 when the Fu Tou branch lies in 子午卯酉, 2 when
in 寅申巳亥, 3 otherwise. -/
def specYuanIdx (dayG dayZ : Nat) : Nat :=
  let fz := DI_ZHI.getD (specFuTouZhiIdx dayG dayZ) ""
  if (["子", "午", "卯", "酉"] : List String).contains fz then 1
  else if (["寅", "申", "巳", "亥"] : List String).contains fz then 2
  else 3

/-- Spec 4.4: the Xun Shou branch — the branch at index
(hour branch index − hour stem index) mod 12. -/
def specXunShouZhi (g z : Nat) : String :=
  DI_ZHI.getD (((z : Int) - (g : Int)) % 12).toNat ""

/-- Spec 4.6: elapsed 2-hour periods — (hour branch index − Xun Shou
branch index) mod 12. -/
def specDiffHours (g z : Nat) : Nat :=
  ((((z : Int) - (((z : Int) - (g : Int)) % 12))) % 12).toNat

/-- Spec 4.6: stepping a palace by `d` along the plain numeric sequence
1..9 — forward under Yang Dun, backward under Yin Dun — wrapping with 0
mapped to 9. -/
def specStep (yang : Bool) (leadLoc d : Nat) : Nat :=
  if yang then
    let r := (leadLoc + d) % 9
    if r = 0 then 9 else r
  else
    let r := ((((leadLoc : Int) - (d : Int)) % 9)).toNat
    if r = 0 then 9 else r

/-- Spec 4.6: the spatial-path index of a door destination, aliasing the
center palace to palace 2. -/
def specDestPathIdx (dest : Nat) : Nat :=
  if dest = 5 then ROTATION_PATH.indexOf 2 else ROTATION_PATH.indexOf dest

-- ## Collected facts about a successful `_generate_plates` run

/-- The bundle of invariants a successful `_generate_plates` run enjoys;
`b` is the Dun polarity (`true` = Yang). -/
structure PlatesFacts (g z : Nat) (b : Bool) (P : Plates) : Prop where
  xun_spec : P.xunShouZhi = specXunShouZhi g z
  xun_lookup : XUN_MAP.lookup P.xunShouZhi = some P.leadStem
  lead_filter : ((P.earth.filter (fun e => e.2 == P.leadStem)).map Prod.fst) =
    [P.leadLoc]
  lead_ge : 1 ≤ P.leadLoc
  lead_le : P.leadLoc ≤ 9
  zhiFu_eq : P.zhiFu = (if P.leadLoc = 5 then "天禽" else getSD STAR_MAP P.leadLoc)
  zhiShi_eq : P.zhiShi = (if P.leadLoc = 5 then "死门" else getSD DOOR_MAP P.leadLoc)
  dest_eq : P.destDoorLoc = specStep b P.leadLoc (specDiffHours g z)
  man_eq : P.man = layoutRing (specDestPathIdx P.destDoorLoc)
    (STD_DOOR_RING.indexOf P.zhiShi) STD_DOOR_RING ++ [(5, "")]
  heaven_keys : ((P.heaven.filter (fun e => e.1 != 5)).map Prod.fst).Perm ROTATION_PATH
  heaven_vals : ((P.heaven.filter (fun e => e.1 != 5)).map Prod.snd).Perm STD_STAR_RING
  heaven_five : P.heaven.lookup 5 = some ""
  man_keys : ((P.man.filter (fun e => e.1 != 5)).map Prod.fst).Perm ROTATION_PATH
  man_vals : ((P.man.filter (fun e => e.1 != 5)).map Prod.snd).Perm STD_DOOR_RING
  man_five : P.man.lookup 5 = some ""
  deity_keys : ((P.deity.filter (fun e => e.1 != 5)).map Prod.fst).Perm ROTATION_PATH
  deity_vals : ((P.deity.filter (fun e => e.1 != 5)).map Prod.snd).Perm DEITIES
  deity_five : P.deity.lookup 5 = some ""
  lodge_count : ((List.range' 1 9).filter (fun i =>
    i != 5 && pyIn (getSD P.earth 5) (getSD P.heavenStem i))).length = 1
  lodge_nz : findLodged P.heavenStem (getSD P.earth 5) ≠ 0
  lodge_le : findLodged P.heavenStem (getSD P.earth 5) ≤ 9
  lodge_ne5 : findLodged P.heavenStem (getSD P.earth 5) ≠ 5
  lodge_star : P.heaven.lookup (findLodged P.heavenStem (getSD P.earth 5)) =
    some "天芮"
  lodge_stem : P.heavenStem.lookup (findLodged P.heavenStem (getSD P.earth 5)) =
    some (getSD P.earth 2 ++ getSD P.earth 5)
  earth_nodup : (P.earth.map Prod.snd).Nodup
  center_ne : ∀ L : Nat, 1 ≤ L → L ≤ 9 → L ≠ 5 →
    getSD P.earth 5 ≠ getSD P.earth L

-- ## `qmdj_chart_api` (the tool boundary in `qimen.py`)

/-- The calendar data the Calendar Adapter extracts from a successfully
parsed timestamp: the solar-term name, and the day and hour pillars as
stem/branch indices. -/
structure CalendarInfo where
  jieQi : String
  dayG : Nat
  dayZ : Nat
  hourG : Nat
  hourZ : Nat
deriving DecidableEq

/-- The JSON value `qmdj_chart_api` returns: either a serialized chart
or an object with a single error string. -/
inductive ApiResult where
  | chart : Chart → ApiResult
  | error : String → ApiResult
deriving DecidableEq

/-- The body of the second `try` block of `qmdj_chart_api` — constructing
the generator and running `generate()` — as a fallible computation;
`Except.error e` models a Python exception escaping `generate()` with
message `e`. The only failure downstream of the Calendar Adapter is a
failed dict indexing in `_generate_plates`, a `KeyError`. -/
def runGenerate (info : CalendarInfo) : Except String Chart :=
  match generateChart info.jieQi info.dayG info.dayZ info.hourG info.hourZ with
  | some c => Except.ok c
  | none => Except.error "KeyError"

/-- The `qmdj_chart_api` tool of `qimen.py`: `parsed` is the outcome of
the `datetime.fromisoformat` `try` block (`none` models a `ValueError`),
and `run` the behavior of the generator construction plus `generate()`
inside the second `try` block. -/
def qmdjChartApi (parsed : Option CalendarInfo)
    (run : CalendarInfo → Except String Chart) : ApiResult :=
  match parsed with
  | none => ApiResult.error
      "Invalid timestamp format. Use ISO 8601 (e.g., 2023-10-27T10:00:00)"
  | some info =>
    match run info with
    | Except.ok c => ApiResult.chart c
    | Except.error e => ApiResult.error ("Chart generation failed: " ++ e)

-- ## Claim C1

/-- C1 counterexample: on the chart generated for solar term 冬至 with a
甲子 day pillar and 甲子 hour pillar (Yang Dun, Ju 1), the earth-stem
values of the 9 palaces are NOT the 10 canonical stems: every palace
holds exactly one single-character stem (no palace holds two), and the
9 values are not a permutation of `TIAN_GAN`. -/
theorem C1_counterexample :
    ∃ C, generateChart "冬至" 0 0 0 0 = some C ∧
      ¬ (C.palaces.map (fun e => e.2.earthStem)).Perm TIAN_GAN ∧
      (C.palaces.map (fun e => e.2.earthStem)).Nodup ∧
      ∀ s ∈ C.palaces.map (fun e => e.2.earthStem), s.length = 1 := by decide

/-- C1 (amended): the Earth Plate walks the fixed 9-stem sequence
`pai_gan` (戊己庚辛壬癸丁丙乙 — 甲 is omitted) starting at palace = Ju
number, stepping +1 with wrap 10→1 under Yang Dun and −1 with wrap 0→9
under Yin Dun, so that the 9 palaces each hold exactly one stem, the
stems across the 9 palaces are exactly the 9 sequence stems each once,
and no palace holds two stems. -/
theorem C1_earth_plate_nine_stems : ∀ (ju : Fin 10) (b : Bool), 1 ≤ ju.val →
    ((earthPlate ju.val (if b then "阳" else "阴")).map Prod.fst).Perm
      (List.range' 1 9) ∧
    ((earthPlate ju.val (if b then "阳" else "阴")).map Prod.fst).Nodup ∧
    (earthPlate ju.val (if b then "阳" else "阴")).map Prod.snd = paiGan ∧
    ((earthPlate ju.val (if b then "阳" else "阴")).map Prod.fst).head? =
      some ju.val ∧
    (((earthPlate ju.val (if b then "阳" else "阴")).map Prod.fst).zip
        (((earthPlate ju.val (if b then "阳" else "阴")).map Prod.fst).tail)).all
      (fun pq => pq.2 == stepPos (if b then "阳" else "阴") pq.1) = true := by decide

/-- C1 witness: the amended statement instantiated at Ju 1, Yang Dun. -/
theorem C1_earth_plate_nine_stems_witness :
    ((earthPlate 1 "阳").map Prod.fst).Perm (List.range' 1 9) ∧
    ((earthPlate 1 "阳").map Prod.fst).Nodup ∧
    (earthPlate 1 "阳").map Prod.snd = paiGan ∧
    ((earthPlate 1 "阳").map Prod.fst).head? = some 1 ∧
    (((earthPlate 1 "阳").map Prod.fst).zip
        (((earthPlate 1 "阳").map Prod.fst).tail)).all
      (fun pq => pq.2 == stepPos "阳" pq.1) = true :=
  C1_earth_plate_nine_stems ⟨1, by decide⟩ true (by decide)

-- ## Claim C5

/-- C5: for every day pillar, `_calc_base_info` computes the Fu Tou stem,
the Fu Tou branch and the Yuan index exactly as the spec describes: stem
index < 5 gives the 1st stem and offset = index, otherwise the 6th stem
and offset = index − 5; branch index = (day branch index − offset) mod 12;
Yuan is 1 for 子午卯酉, 2 for 寅申巳亥, 3 otherwise. -/
theorem C5_futou_yuan : ∀ (dG : Fin 10) (dZ : Fin 12),
    (calcBase dG.val dZ.val).futouGan = specFuTouGan dG.val ∧
    (calcBase dG.val dZ.val).futouZhi =
      DI_ZHI.getD (specFuTouZhiIdx dG.val dZ.val) "" ∧
    (calcBase dG.val dZ.val).yuanIdx = specYuanIdx dG.val dZ.val := by decide

-- ## Claim C8

/-- C8 counterexample: the Yang-Dun membership list disagrees with the Ju
table keys on FOUR terms, not three — 芒種 is also spelled traditionally in
`YANG_DUN_JQ` while `JU_MAP` only has the simplified 芒种. -/
theorem C8_counterexample :
    "芒種" ∈ YANG_DUN_JQ ∧ JU_MAP.lookup "芒種" = none ∧
    "芒種" ∉ (["驚蟄", "穀雨", "小滿"] : List String) ∧
    "芒种" ∉ YANG_DUN_JQ ∧ (JU_MAP.lookup "芒种").isSome = true ∧
    (YANG_DUN_JQ.filter (fun t => (JU_MAP.lookup t).isNone)).length = 4 := by decide

/-- C8 (amended): the Yang-Dun list spells FOUR terms in traditional
characters (驚蟄, 穀雨, 小滿, 芒種) while the Ju table keys spell them
simplified (惊蛰, 谷雨, 小满, 芒种); each traditional form is classified
Yang Dun yet falls back to Ju 1, while each simplified form receives its
table Ju number yet is classified Yin Dun. -/
theorem C8_spelling_mismatch :
    ((["驚蟄", "穀雨", "小滿", "芒種"] : List String).all (fun t =>
      YANG_DUN_JQ.contains t && (JU_MAP.lookup t).isNone &&
      decide (∀ yi : Fin 3, calcJu t (yi.val + 1) = ("阳", 1)))) = true ∧
    ((["惊蛰", "谷雨", "小满", "芒种"] : List String).all (fun s =>
      !YANG_DUN_JQ.contains s && (JU_MAP.lookup s).isSome &&
      decide (∀ yi : Fin 3, (calcJu s (yi.val + 1)).1 = "阴" ∧
        (calcJu s (yi.val + 1)).2 =
          ((JU_MAP.lookup s).getD []).getD yi.val 0))) = true := by decide

-- ## Claim C4

/-- C4: for every valid hour pillar (stem index `g`, branch index `z` of
matching parity) and every Ju 1-9 and Dun polarity, `_generate_plates`
computes the Xun Shou branch at index (z − g) mod 12, finds its lead stem
in the 6-entry `XUN_MAP`, locates the unique Earth-Plate palace holding
that lead stem, and takes the commanding star/door from the fixed
per-palace tables, with palace 5 special-cased to 天禽 and 死门. -/
theorem C4_xun_shou_zhi_fu_zhi_shi :
    ∀ (g : Fin 10) (z : Fin 12) (ju : Fin 10) (b : Bool),
    z.val % 2 = g.val % 2 → 1 ≤ ju.val →
    ∃ P, generatePlates ju.val (if b then "阳" else "阴") g.val z.val = some P ∧
      P.xunShouZhi = specXunShouZhi g.val z.val ∧
      XUN_MAP.lookup P.xunShouZhi = some P.leadStem ∧
      ((P.earth.filter (fun e => e.2 == P.leadStem)).map Prod.fst) =
        [P.leadLoc] ∧
      P.zhiFu = (if P.leadLoc = 5 then "天禽" else getSD STAR_MAP P.leadLoc) ∧
      P.zhiShi = (if P.leadLoc = 5 then "死门" else getSD DOOR_MAP P.leadLoc) := by
  decide

/-- C4 witness: the statement instantiated at the 甲子 hour, Ju 1, Yang Dun. -/
theorem C4_xun_shou_zhi_fu_zhi_shi_witness :
    ∃ P, generatePlates 1 "阳" 0 0 = some P ∧
      P.xunShouZhi = specXunShouZhi 0 0 ∧
      XUN_MAP.lookup P.xunShouZhi = some P.leadStem ∧
      ((P.earth.filter (fun e => e.2 == P.leadStem)).map Prod.fst) =
        [P.leadLoc] ∧
      P.zhiFu = (if P.leadLoc = 5 then "天禽" else getSD STAR_MAP P.leadLoc) ∧
      P.zhiShi = (if P.leadLoc = 5 then "死门" else getSD DOOR_MAP P.leadLoc) :=
  C4_xun_shou_zhi_fu_zhi_shi ⟨0, by decide⟩ ⟨0, by decide⟩ ⟨1, by decide⟩ true
    (by decide) (by decide)

-- ## Helper lemmas: small finite checks

/-- Looked-up values come from the table's value column. -/
lemma lookup_snd_mem {α β : Type} [BEq α] :
    ∀ {l : List (α × β)} {k : α} {v : β},
      l.lookup k = some v → v ∈ l.map Prod.snd := by
  intro l
  induction l with
  | nil => intro k v h; simp [List.lookup] at h
  | cons e t ih =>
    intro k v h
    rcases e with ⟨a, bb⟩
    rw [List.lookup] at h
    split at h
    · cases h
      exact List.mem_cons_self _ _
    · exact List.mem_cons_of_mem _ (ih h)

/-- The Earth Plate for Ju 1-9: palaces are a permutation of 1..9 and the
stems are exactly the sequence `pai_gan`; the stems are pairwise
distinct, and the center's stem differs from every other palace's. -/
lemma earth_plate_facts : ∀ ju < 10, 1 ≤ ju → ∀ b : Bool,
    ((earthPlate ju (if b then "阳" else "阴")).map Prod.fst).Perm (List.range' 1 9) ∧
    (earthPlate ju (if b then "阳" else "阴")).map Prod.snd = paiGan ∧
    ((earthPlate ju (if b then "阳" else "阴")).map Prod.snd).Nodup := by decide

/-- The center palace's earth stem differs from every other palace's. -/
lemma earth_center_distinct : ∀ (ju L : Fin 10) (b : Bool),
    1 ≤ ju.val → 1 ≤ L.val → L.val ≠ 5 →
    getSD (earthPlate ju.val (if b then "阳" else "阴")) 5 ≠
      getSD (earthPlate ju.val (if b then "阳" else "阴")) L.val := by decide

/-- `findLoc` on the Earth Plate, for any stem of the layout sequence:
the found palace is 1-9, it holds the stem, and it is the unique
palace doing so. -/
lemma findLoc_paiGan : ∀ ju < 10, 1 ≤ ju → ∀ b : Bool, ∀ s ∈ paiGan,
    1 ≤ findLoc (earthPlate ju (if b then "阳" else "阴")) s ∧
    findLoc (earthPlate ju (if b then "阳" else "阴")) s ≤ 9 ∧
    (((earthPlate ju (if b then "阳" else "阴")).filter
      (fun e => e.2 == s)).map Prod.fst) =
      [findLoc (earthPlate ju (if b then "阳" else "阴")) s] := by decide

/-- Every lead stem of `XUN_MAP` occurs in the layout sequence. -/
lemma xun_values : ∀ s ∈ XUN_MAP.map Prod.snd, s ∈ paiGan := by decide

/-- For a valid hour pillar the Xun Shou branch is one of `XUN_MAP`'s six
keys, so the lookup succeeds. -/
lemma xun_lookup_valid : ∀ g < 10, ∀ z < 12, z % 2 = g % 2 →
    (XUN_MAP.lookup (xunZhiOf g z)).isSome = true := by decide

/-- `STAR_MAP` and `DOOR_MAP` are total on palaces 1-9. -/
lemma star_door_lookup : ∀ L < 10, 1 ≤ L →
    STAR_MAP.lookup L = some (getSD STAR_MAP L) ∧
    DOOR_MAP.lookup L = some (getSD DOOR_MAP L) := by decide

/-- The hour stem is either 甲 or one of the nine layout stems. -/
lemma hour_stem_cases : ∀ g < 10,
    TIAN_GAN.getD g "" = "甲" ∨ TIAN_GAN.getD g "" ∈ paiGan := by decide

/-- The commanding door always sits in the standard door ring, the
fallback branch of its `index` call is dead, and the ring index is
below 8. -/
lemma zhi_shi_ring : ∀ L < 10, 1 ≤ L →
    matchIdx (STD_DOOR_RING.indexOf? (if L = 5 then "死门" else getSD DOOR_MAP L)) 0 =
      STD_DOOR_RING.indexOf (if L = 5 then "死门" else getSD DOOR_MAP L) ∧
    STD_DOOR_RING.indexOf (if L = 5 then "死门" else getSD DOOR_MAP L) < 8 := by decide

/-- The star-ring start index computed from the commanding star (with the
天禽→天芮 alias) is below 8 for every possible commanding-star palace. -/
lemma zf_ring_idx : ∀ L < 10, 1 ≤ L →
    matchIdx (STD_STAR_RING.indexOf?
      (if (if L = 5 then "天禽" else getSD STAR_MAP L) = "天禽" then "天芮"
       else (if L = 5 then "天禽" else getSD STAR_MAP L))) 5 < 8 := by decide

/-- The three `ROTATION_PATH.index` computations, for any palace 1-9:
all start indices are below 8, and the door variant agrees with the
spec-side alias rule (center → palace 2). -/
lemma rot_idx_facts : ∀ t < 10, 1 ≤ t →
    matchIdx (ROTATION_PATH.indexOf? t)
      (if t = 5 then ROTATION_PATH.indexOf 2 else 0) < 8 ∧
    matchIdx (ROTATION_PATH.indexOf? t) 0 < 8 ∧
    matchIdx (ROTATION_PATH.indexOf? t) (ROTATION_PATH.indexOf 2) =
      specDestPathIdx t ∧
    specDestPathIdx t < 8 := by decide

/-- The two wraparound while-loops agree with the spec-side step formula,
whose result always lies in 1..9. -/
lemma wrap_spec : ∀ L < 10, 1 ≤ L → ∀ dh < 12,
    (let d := wrapDown (L + dh) (L + dh); if d = 0 then 9 else d) =
      specStep true L dh ∧
    (wrapUp (1 - ((L : Int) - (dh : Int))).toNat ((L : Int) - (dh : Int))).toNat =
      specStep false L dh ∧
    (∀ b : Bool, 1 ≤ specStep b L dh ∧ specStep b L dh ≤ 9) := by decide

/-- The code's elapsed-period computation (via `DI_ZHI.index` of the two
branch characters) equals the spec-side formula, and is below 12. -/
lemma diff_hours_spec : ∀ g < 10, ∀ z < 12,
    (((DI_ZHI.indexOf (DI_ZHI.getD z "") : Int) -
      (DI_ZHI.indexOf (xunZhiOf g z) : Int)) % 12).toNat = specDiffHours g z ∧
    specDiffHours g z < 12 := by decide

/-- Layout facts for the star ring: for any start indices, the loop fills
the 8 non-center palaces bijectively with the 8 ring symbols, and the
appended center entry is the empty placeholder. -/
lemma layout_star_facts : ∀ (f s : Fin 8),
    (((layoutRing f.val s.val STD_STAR_RING ++ ([(5, "")] : List (Nat × String))).filter
      (fun e => e.1 != 5)).map Prod.fst).Perm ROTATION_PATH ∧
    (((layoutRing f.val s.val STD_STAR_RING ++ ([(5, "")] : List (Nat × String))).filter
      (fun e => e.1 != 5)).map Prod.snd).Perm STD_STAR_RING ∧
    (layoutRing f.val s.val STD_STAR_RING ++ ([(5, "")] : List (Nat × String))).lookup 5 = some "" := by decide

/-- Layout facts for the door ring, as for the star ring. -/
lemma layout_door_facts : ∀ (f s : Fin 8),
    (((layoutRing f.val s.val STD_DOOR_RING ++ ([(5, "")] : List (Nat × String))).filter
      (fun e => e.1 != 5)).map Prod.fst).Perm ROTATION_PATH ∧
    (((layoutRing f.val s.val STD_DOOR_RING ++ ([(5, "")] : List (Nat × String))).filter
      (fun e => e.1 != 5)).map Prod.snd).Perm STD_DOOR_RING ∧
    (layoutRing f.val s.val STD_DOOR_RING ++ ([(5, "")] : List (Nat × String))).lookup 5 = some "" := by decide

/-- Layout facts for the deity loops, in both rotation directions. -/
lemma deity_loop_facts : ∀ (t : Fin 8) (b : Bool),
    ((((if b then deityLoopYang t.val else deityLoopYin t.val) ++ ([(5, "")] : List (Nat × String))).filter
      (fun e => e.1 != 5)).map Prod.fst).Perm ROTATION_PATH ∧
    ((((if b then deityLoopYang t.val else deityLoopYin t.val) ++ ([(5, "")] : List (Nat × String))).filter
      (fun e => e.1 != 5)).map Prod.snd).Perm DEITIES ∧
    ((if b then deityLoopYang t.val else deityLoopYin t.val) ++ ([(5, "")] : List (Nat × String))).lookup 5 =
      some "" := by decide

/-- Center-lodging facts, enumerated over the Ju number, the Dun polarity
and the two rotation start indices: exactly one non-center palace's
heaven stem contains the center's earth stem; the lodging search finds a
palace 1-9 other than 5; that palace carries 天芮 on the star layout
seeded with the same indices; and its heaven stem is the concatenation of
palace 2's and palace 5's earth stems. -/
lemma heaven_stem_facts : ∀ ju < 10, 1 ≤ ju → ∀ (b : Bool) (s t : Fin 8),
    ((List.range' 1 9).filter (fun i =>
      i != 5 && pyIn (getSD (earthPlate ju (if b then "阳" else "阴")) 5)
        (getSD (heavenStemLoop (earthPlate ju (if b then "阳" else "阴")) s.val t.val) i))).length = 1 ∧
    (findLodged (heavenStemLoop (earthPlate ju (if b then "阳" else "阴")) s.val t.val)
        (getSD (earthPlate ju (if b then "阳" else "阴")) 5) ≠ 0 ∧
      findLodged (heavenStemLoop (earthPlate ju (if b then "阳" else "阴")) s.val t.val)
        (getSD (earthPlate ju (if b then "阳" else "阴")) 5) ≤ 9 ∧
      findLodged (heavenStemLoop (earthPlate ju (if b then "阳" else "阴")) s.val t.val)
        (getSD (earthPlate ju (if b then "阳" else "阴")) 5) ≠ 5) ∧
    (layoutRing t.val s.val STD_STAR_RING ++ ([(5, "")] : List (Nat × String))).lookup
        (findLodged (heavenStemLoop (earthPlate ju (if b then "阳" else "阴")) s.val t.val)
          (getSD (earthPlate ju (if b then "阳" else "阴")) 5)) = some "天芮" ∧
    (heavenStemLoop (earthPlate ju (if b then "阳" else "阴")) s.val t.val).lookup
        (findLodged (heavenStemLoop (earthPlate ju (if b then "阳" else "阴")) s.val t.val)
          (getSD (earthPlate ju (if b then "阳" else "阴")) 5)) =
      some (getSD (earthPlate ju (if b then "阳" else "阴")) 2 ++
        getSD (earthPlate ju (if b then "阳" else "阴")) 5) := by decide

-- ## Symbolic structure of `generatePlates`

/-- Inverting a successful `_generate_plates` run: the three dict
indexings succeeded, and the result is the infallible tail applied to
their values. -/
lemma generatePlates_some {ju : Nat} {yy : String} {g z : Nat} {P : Plates}
    (h : generatePlates ju yy g z = some P) :
    ∃ ls f0 s0,
      XUN_MAP.lookup (xunZhiOf g z) = some ls ∧
      STAR_MAP.lookup (findLoc (earthPlate ju yy) ls) = some f0 ∧
      DOOR_MAP.lookup (findLoc (earthPlate ju yy) ls) = some s0 ∧
      P = platesCore ju yy g z ls f0 s0 := by
  unfold generatePlates at h
  cases h1 : XUN_MAP.lookup (xunZhiOf g z) with
  | none => rw [h1] at h; exact absurd h (by simp)
  | some ls =>
    rw [h1] at h
    simp only [Option.bind_eq_bind, Option.some_bind] at h
    cases h2 : STAR_MAP.lookup (findLoc (earthPlate ju yy) ls) with
    | none => rw [h2] at h; exact absurd h (by simp)
    | some f0 =>
      rw [h2] at h
      simp only [Option.bind_eq_bind, Option.some_bind] at h
      cases h3 : DOOR_MAP.lookup (findLoc (earthPlate ju yy) ls) with
      | none => rw [h3] at h; exact absurd h (by simp)
      | some s0 =>
        rw [h3] at h
        simp only [Option.some_bind, Option.some.injEq] at h
        exact ⟨ls, f0, s0, rfl, h2, h3, h.symm⟩

/-- Master lemma: every successful `_generate_plates` run on a valid hour
pillar and a Ju number 1-9 satisfies all the facts above. -/
lemma plates_facts {ju g z : Nat} {b : Bool} {P : Plates}
    (hju1 : 1 ≤ ju) (hju9 : ju ≤ 9) (hg : g < 10) (hz : z < 12)
    (h : generatePlates ju (if b then "阳" else "阴") g z = some P) :
    PlatesFacts g z b P := by
  obtain ⟨ls, f0, s0, h1, h2, h3, rfl⟩ := generatePlates_some h
  have hju10 : ju < 10 := by omega
  have hls : ls ∈ paiGan := xun_values _ (lookup_snd_mem h1)
  obtain ⟨hL1, hL9, hLuniq⟩ := findLoc_paiGan ju hju10 hju1 b ls hls
  have hL10 : findLoc (earthPlate ju (if b then "阳" else "阴")) ls < 10 := by omega
  have hf0 : getSD STAR_MAP (findLoc (earthPlate ju (if b then "阳" else "阴")) ls) = f0 := by
    unfold getSD; rw [h2]; rfl
  have hs0 : getSD DOOR_MAP (findLoc (earthPlate ju (if b then "阳" else "阴")) ls) = s0 := by
    unfold getSD; rw [h3]; rfl
  obtain ⟨hdh, hdh12⟩ := diff_hours_spec g hg z hz
  -- the destination palace of the commanding door
  have hdest : (platesCore ju (if b then "阳" else "阴") g z ls f0 s0).destDoorLoc =
      specStep b (findLoc (earthPlate ju (if b then "阳" else "阴")) ls)
        (specDiffHours g z) := by
    show (if (if b then "阳" else "阴") = "阳" then _ else _) = _
    cases b with
    | true =>
      rw [if_pos rfl, if_pos rfl]
      rw [hdh]
      exact (wrap_spec _ hL10 hL1 _ hdh12).1
    | false =>
      rw [if_neg (by decide), if_neg (by decide)]
      rw [hdh]
      exact (wrap_spec _ hL10 hL1 _ hdh12).2.1
  obtain ⟨hds1, hds9⟩ :=
    ((wrap_spec _ hL10 hL1 _ hdh12).2.2 b :
      1 ≤ specStep b (findLoc (earthPlate ju (if b then "阳" else "阴")) ls)
          (specDiffHours g z) ∧ _)
  -- bounds for the target palace of the hour stem
  have hT : 1 ≤ findLoc (earthPlate ju (if b then "阳" else "阴"))
        (if TIAN_GAN.getD g "" = "甲" then ls else TIAN_GAN.getD g "") ∧
      findLoc (earthPlate ju (if b then "阳" else "阴"))
        (if TIAN_GAN.getD g "" = "甲" then ls else TIAN_GAN.getD g "") ≤ 9 := by
    by_cases hga : TIAN_GAN.getD g "" = "甲"
    · rw [if_pos hga]
      exact ⟨hL1, hL9⟩
    · rw [if_neg hga]
      have hmem : TIAN_GAN.getD g "" ∈ paiGan :=
        (hour_stem_cases g hg).resolve_left hga
      obtain ⟨a1, a9, -⟩ := findLoc_paiGan ju hju10 hju1 b _ hmem
      exact ⟨a1, a9⟩
  have hT10 : findLoc (earthPlate ju (if b then "阳" else "阴"))
      (if TIAN_GAN.getD g "" = "甲" then ls else TIAN_GAN.getD g "") < 10 := by
    omega
  -- bounds for the four loop start indices
  have hSI : matchIdx (STD_STAR_RING.indexOf?
      (if (if findLoc (earthPlate ju (if b then "阳" else "阴")) ls = 5
           then "天禽" else f0) = "天禽" then "天芮"
       else (if findLoc (earthPlate ju (if b then "阳" else "阴")) ls = 5
           then "天禽" else f0))) 5 < 8 := by
    rw [← hf0]
    exact zf_ring_idx _ hL10 hL1
  have hTI := (rot_idx_facts _ hT10 hT.1).1
  have hDI := (rot_idx_facts _ hT10 hT.1).2.1
  have hFD9 : (platesCore ju (if b then "阳" else "阴") g z ls f0 s0).destDoorLoc < 10 := by
    rw [hdest]; omega
  have hFD1 : 1 ≤ (platesCore ju (if b then "阳" else "阴") g z ls f0 s0).destDoorLoc := by
    rw [hdest]; exact hds1
  obtain ⟨hSDidx, hSD8⟩ := zhi_shi_ring _ hL10 hL1
  have hFDI : matchIdx (ROTATION_PATH.indexOf?
      (platesCore ju (if b then "阳" else "阴") g z ls f0 s0).destDoorLoc)
      (ROTATION_PATH.indexOf 2) < 8 := by
    rw [(rot_idx_facts _ hFD9 hFD1).2.2.1]
    exact (rot_idx_facts _ hFD9 hFD1).2.2.2
  have hSDI : matchIdx (STD_DOOR_RING.indexOf?
      (if findLoc (earthPlate ju (if b then "阳" else "阴")) ls = 5
       then "死门" else s0)) 0 < 8 := by
    rw [← hs0, hSDidx]
    exact hSD8
  refine
    { xun_spec := rfl
      xun_lookup := h1
      lead_filter := hLuniq
      lead_ge := hL1
      lead_le := hL9
      zhiFu_eq := ?_
      zhiShi_eq := ?_
      dest_eq := hdest
      man_eq := ?_
      heaven_keys := ?_
      heaven_vals := ?_
      heaven_five := ?_
      man_keys := ?_
      man_vals := ?_
      man_five := ?_
      deity_keys := ?_
      deity_vals := ?_
      deity_five := ?_
      lodge_count := ?_
      lodge_nz := ?_
      lodge_le := ?_
      lodge_ne5 := ?_
      lodge_star := ?_
      lodge_stem := ?_
      earth_nodup := (earth_plate_facts ju hju10 hju1 b).2.2
      center_ne := ?_ }
  · show (if findLoc (earthPlate ju (if b then "阳" else "阴")) ls = 5
        then "天禽" else f0) =
      (if findLoc (earthPlate ju (if b then "阳" else "阴")) ls = 5
        then "天禽"
        else getSD STAR_MAP (findLoc (earthPlate ju (if b then "阳" else "阴")) ls))
    rw [hf0]
  · show (if findLoc (earthPlate ju (if b then "阳" else "阴")) ls = 5
        then "死门" else s0) =
      (if findLoc (earthPlate ju (if b then "阳" else "阴")) ls = 5
        then "死门"
        else getSD DOOR_MAP (findLoc (earthPlate ju (if b then "阳" else "阴")) ls))
    rw [hs0]
  · show layoutRing
        (matchIdx (ROTATION_PATH.indexOf?
          (platesCore ju (if b then "阳" else "阴") g z ls f0 s0).destDoorLoc)
          (ROTATION_PATH.indexOf 2))
        (matchIdx (STD_DOOR_RING.indexOf?
          (if findLoc (earthPlate ju (if b then "阳" else "阴")) ls = 5
           then "死门" else s0)) 0)
        STD_DOOR_RING ++ [(5, "")] =
      layoutRing
        (specDestPathIdx
          (platesCore ju (if b then "阳" else "阴") g z ls f0 s0).destDoorLoc)
        (STD_DOOR_RING.indexOf
          (if findLoc (earthPlate ju (if b then "阳" else "阴")) ls = 5
           then "死门" else s0))
        STD_DOOR_RING ++ [(5, "")]
    rw [(rot_idx_facts _ hFD9 hFD1).2.2.1, ← hs0, hSDidx]
  · exact (layout_star_facts ⟨_, hTI⟩ ⟨_, hSI⟩).1
  · exact (layout_star_facts ⟨_, hTI⟩ ⟨_, hSI⟩).2.1
  · exact (layout_star_facts ⟨_, hTI⟩ ⟨_, hSI⟩).2.2
  · exact (layout_door_facts ⟨_, hFDI⟩ ⟨_, hSDI⟩).1
  · exact (layout_door_facts ⟨_, hFDI⟩ ⟨_, hSDI⟩).2.1
  · exact (layout_door_facts ⟨_, hFDI⟩ ⟨_, hSDI⟩).2.2
  · cases b with
    | true => exact (deity_loop_facts ⟨_, hDI⟩ true).1
    | false => exact (deity_loop_facts ⟨_, hDI⟩ false).1
  · cases b with
    | true => exact (deity_loop_facts ⟨_, hDI⟩ true).2.1
    | false => exact (deity_loop_facts ⟨_, hDI⟩ false).2.1
  · cases b with
    | true => exact (deity_loop_facts ⟨_, hDI⟩ true).2.2
    | false => exact (deity_loop_facts ⟨_, hDI⟩ false).2.2
  · exact (heaven_stem_facts ju hju10 hju1 b ⟨_, hSI⟩ ⟨_, hTI⟩).1
  · exact (heaven_stem_facts ju hju10 hju1 b ⟨_, hSI⟩ ⟨_, hTI⟩).2.1.1
  · exact (heaven_stem_facts ju hju10 hju1 b ⟨_, hSI⟩ ⟨_, hTI⟩).2.1.2.1
  · exact (heaven_stem_facts ju hju10 hju1 b ⟨_, hSI⟩ ⟨_, hTI⟩).2.1.2.2
  · exact (heaven_stem_facts ju hju10 hju1 b ⟨_, hSI⟩ ⟨_, hTI⟩).2.2.1
  · exact (heaven_stem_facts ju hju10 hju1 b ⟨_, hSI⟩ ⟨_, hTI⟩).2.2.2
  · intro L hl1 hl9 hl5
    exact earth_center_distinct ⟨ju, hju10⟩ ⟨L, by omega⟩ b hju1 hl1 hl5

/-- On a valid hour pillar and Ju 1-9, all three dict indexings succeed,
so `_generate_plates` produces a value. -/
lemma generatePlates_isSome {ju g z : Nat} (b : Bool) (hju1 : 1 ≤ ju)
    (hju9 : ju ≤ 9) (hg : g < 10) (hz : z < 12) (hpar : z % 2 = g % 2) :
    ∃ P, generatePlates ju (if b then "阳" else "阴") g z = some P := by
  have h1 := xun_lookup_valid g hg z hz hpar
  rw [Option.isSome_iff_exists] at h1
  obtain ⟨ls, h1⟩ := h1
  have hls : ls ∈ paiGan := xun_values _ (lookup_snd_mem h1)
  obtain ⟨hL1, hL9, -⟩ := findLoc_paiGan ju (by omega) hju1 b ls hls
  obtain ⟨h2, h3⟩ := star_door_lookup
    (findLoc (earthPlate ju (if b then "阳" else "阴")) ls) (by omega) hL1
  refine ⟨platesCore ju (if b then "阳" else "阴") g z ls
    (getSD STAR_MAP (findLoc (earthPlate ju (if b then "阳" else "阴")) ls))
    (getSD DOOR_MAP (findLoc (earthPlate ju (if b then "阳" else "阴")) ls)), ?_⟩
  unfold generatePlates
  rw [h1]
  simp only [Option.bind_eq_bind, Option.some_bind]
  rw [h2]
  simp only [Option.some_bind]
  rw [h3]
  simp only [Option.some_bind]

-- ## Claim C3

/-- C3: for every valid hour pillar, Ju 1-9 and Dun polarity, the Man
Plate's destination palace equals the commanding door's palace stepped
forward (Yang Dun) or backward (Yin Dun) by (hour branch index − Xun Shou
branch index) mod 12 along the plain numeric sequence 1..9 with 0 mapped
to 9, and the 8 doors are laid along the spatial rotation path starting
at that destination's path index, a center destination being aliased to
palace 2. -/
theorem C3_door_destination :
    ∀ (g : Fin 10) (z : Fin 12) (ju : Fin 10) (b : Bool),
    z.val % 2 = g.val % 2 → 1 ≤ ju.val →
    ∃ P, generatePlates ju.val (if b then "阳" else "阴") g.val z.val = some P ∧
      P.destDoorLoc = specStep b P.leadLoc (specDiffHours g.val z.val) ∧
      P.man = layoutRing (specDestPathIdx P.destDoorLoc)
        (STD_DOOR_RING.indexOf P.zhiShi) STD_DOOR_RING ++ [(5, "")] := by
  intro g z ju b hpar hju
  obtain ⟨P, hP⟩ := generatePlates_isSome b hju (by omega) g.isLt z.isLt hpar
  have F := plates_facts hju (by omega) g.isLt z.isLt hP
  exact ⟨P, hP, F.dest_eq, F.man_eq⟩

/-- C3 witness: the statement instantiated at the 乙丑 hour, Ju 3, Yin Dun. -/
theorem C3_door_destination_witness :
    ∃ P, generatePlates 3 (if false then "阳" else "阴") 1 1 = some P ∧
      P.destDoorLoc = specStep false P.leadLoc (specDiffHours 1 1) ∧
      P.man = layoutRing (specDestPathIdx P.destDoorLoc)
        (STD_DOOR_RING.indexOf P.zhiShi) STD_DOOR_RING ++ [(5, "")] :=
  C3_door_destination ⟨1, by decide⟩ ⟨1, by decide⟩ ⟨3, by decide⟩ false
    (by decide) (by decide)

-- ## Claim C6

/-- C6: for every valid hour pillar, Ju 1-9 and Dun polarity, each of the
star, door and deity plates assigns its 8 symbols bijectively onto the 8
non-center palaces — the non-center keys are a permutation of the spatial
path and the values a permutation of the full symbol ring — while palace 5
itself carries only the empty placeholder, never a computed symbol. -/
theorem C6_plates_bijective :
    ∀ (g : Fin 10) (z : Fin 12) (ju : Fin 10) (b : Bool),
    z.val % 2 = g.val % 2 → 1 ≤ ju.val →
    ∃ P, generatePlates ju.val (if b then "阳" else "阴") g.val z.val = some P ∧
      ((P.heaven.filter (fun e => e.1 != 5)).map Prod.fst).Perm ROTATION_PATH ∧
      ((P.heaven.filter (fun e => e.1 != 5)).map Prod.snd).Perm STD_STAR_RING ∧
      P.heaven.lookup 5 = some "" ∧
      ((P.man.filter (fun e => e.1 != 5)).map Prod.fst).Perm ROTATION_PATH ∧
      ((P.man.filter (fun e => e.1 != 5)).map Prod.snd).Perm STD_DOOR_RING ∧
      P.man.lookup 5 = some "" ∧
      ((P.deity.filter (fun e => e.1 != 5)).map Prod.fst).Perm ROTATION_PATH ∧
      ((P.deity.filter (fun e => e.1 != 5)).map Prod.snd).Perm DEITIES ∧
      P.deity.lookup 5 = some "" := by
  intro g z ju b hpar hju
  obtain ⟨P, hP⟩ := generatePlates_isSome b hju (by omega) g.isLt z.isLt hpar
  have F := plates_facts hju (by omega) g.isLt z.isLt hP
  exact ⟨P, hP, F.heaven_keys, F.heaven_vals, F.heaven_five,
    F.man_keys, F.man_vals, F.man_five,
    F.deity_keys, F.deity_vals, F.deity_five⟩

/-- C6 witness: the statement instantiated at the 丙寅 hour, Ju 7, Yin Dun. -/
theorem C6_plates_bijective_witness :
    ∃ P, generatePlates 7 (if false then "阳" else "阴") 2 2 = some P ∧
      ((P.heaven.filter (fun e => e.1 != 5)).map Prod.fst).Perm ROTATION_PATH ∧
      ((P.heaven.filter (fun e => e.1 != 5)).map Prod.snd).Perm STD_STAR_RING ∧
      P.heaven.lookup 5 = some "" ∧
      ((P.man.filter (fun e => e.1 != 5)).map Prod.fst).Perm ROTATION_PATH ∧
      ((P.man.filter (fun e => e.1 != 5)).map Prod.snd).Perm STD_DOOR_RING ∧
      P.man.lookup 5 = some "" ∧
      ((P.deity.filter (fun e => e.1 != 5)).map Prod.fst).Perm ROTATION_PATH ∧
      ((P.deity.filter (fun e => e.1 != 5)).map Prod.snd).Perm DEITIES ∧
      P.deity.lookup 5 = some "" :=
  C6_plates_bijective ⟨2, by decide⟩ ⟨2, by decide⟩ ⟨7, by decide⟩ false
    (by decide) (by decide)

-- ## Claim C10

/-- C10: for every valid hour pillar, Ju 1-9 and Dun polarity, the
center-lodging search succeeds and is unique: exactly one non-center
palace's heaven stem contains the center's earth stem, the found palace
carries the star 天芮, its heaven stem is the concatenation of palace 2's
earth stem with palace 5's earth stem, and the Earth Plate's stems are
pairwise distinct. -/
theorem C10_lodging_unique :
    ∀ (g : Fin 10) (z : Fin 12) (ju : Fin 10) (b : Bool),
    z.val % 2 = g.val % 2 → 1 ≤ ju.val →
    ∃ P, generatePlates ju.val (if b then "阳" else "阴") g.val z.val = some P ∧
      ((List.range' 1 9).filter (fun i =>
        i != 5 && pyIn (getSD P.earth 5) (getSD P.heavenStem i))).length = 1 ∧
      findLodged P.heavenStem (getSD P.earth 5) ≠ 0 ∧
      P.heaven.lookup (findLodged P.heavenStem (getSD P.earth 5)) =
        some "天芮" ∧
      P.heavenStem.lookup (findLodged P.heavenStem (getSD P.earth 5)) =
        some (getSD P.earth 2 ++ getSD P.earth 5) ∧
      (P.earth.map Prod.snd).Nodup := by
  intro g z ju b hpar hju
  obtain ⟨P, hP⟩ := generatePlates_isSome b hju (by omega) g.isLt z.isLt hpar
  have F := plates_facts hju (by omega) g.isLt z.isLt hP
  exact ⟨P, hP, F.lodge_count, F.lodge_nz, F.lodge_star, F.lodge_stem,
    F.earth_nodup⟩

/-- C10 witness: the statement instantiated at the 丁卯 hour, Ju 5, Yang Dun. -/
theorem C10_lodging_unique_witness :
    ∃ P, generatePlates 5 (if true then "阳" else "阴") 3 3 = some P ∧
      ((List.range' 1 9).filter (fun i =>
        i != 5 && pyIn (getSD P.earth 5) (getSD P.heavenStem i))).length = 1 ∧
      findLodged P.heavenStem (getSD P.earth 5) ≠ 0 ∧
      P.heaven.lookup (findLodged P.heavenStem (getSD P.earth 5)) =
        some "天芮" ∧
      P.heavenStem.lookup (findLodged P.heavenStem (getSD P.earth 5)) =
        some (getSD P.earth 2 ++ getSD P.earth 5) ∧
      (P.earth.map Prod.snd).Nodup :=
  C10_lodging_unique ⟨3, by decide⟩ ⟨3, by decide⟩ ⟨5, by decide⟩ true
    (by decide) (by decide)

-- ## Chart-level helper lemmas

/-- `generate` unfolded: the chart is the image of `_generate_plates`
under the output assembly. -/
lemma generateChart_map (jq : String) (dayG dayZ g z : Nat) :
    generateChart jq dayG dayZ g z =
    (generatePlates (calcJu jq (calcBase dayG dayZ).yuanIdx).2
      (calcJu jq (calcBase dayG dayZ).yuanIdx).1 g z).map (fun P =>
      { solarTerm := jq, yuan := (calcBase dayG dayZ).yuan,
        yinYang := (calcJu jq (calcBase dayG dayZ).yuanIdx).1,
        juNum := (calcJu jq (calcBase dayG dayZ).yuanIdx).2,
        xunShou := P.xunShou, zhiFu := P.zhiFu, zhiShi := P.zhiShi,
        horseStar := calcHorse (DI_ZHI.getD z ""),
        emptyDeath := calcEmptyDeath g z,
        palaces := formatOutput P (calcHorse (DI_ZHI.getD z ""))
          (calcEmptyDeath g z) }) := rfl

/-- The palace keys of `_format_output` are exactly 1..9 in order. -/
lemma formatOutput_keys (P : Plates) (h e : String) :
    (formatOutput P h e).map Prod.fst = List.range' 1 9 := rfl

/-- Indexing the `_format_output` palace map at a palace 1-9 yields that
palace's assembled record. -/
lemma formatOutput_lookup (P : Plates) (h e : String) (i : Nat)
    (hi : 1 ≤ i) (hi9 : i ≤ 9) :
    (formatOutput P h e).lookup i = some (palaceEntry P
      (BRANCH_TO_PALACE.lookup h)
      (e.toList.map (fun c => BRANCH_TO_PALACE.lookup c.toString))
      (findLodged P.heavenStem (getSD P.earth 5)) i) := by
  interval_cases i <;> rfl

/-- When the lodged-palace search does not fall through to 0, it returns
a non-center palace 1-9 whose heaven stem contains the center stem. -/
lemma findLodged_spec (hs : List (Nat × String)) (c : String)
    (h : findLodged hs c ≠ 0) :
    1 ≤ findLodged hs c ∧ findLodged hs c ≤ 9 ∧ findLodged hs c ≠ 5 ∧
    pyIn c (getSD hs (findLodged hs c)) = true := by
  unfold findLodged at h ⊢
  cases hf : ((List.range' 1 9).filter (fun i => i != 5)).find?
      (fun i => pyIn c (getSD hs i)) with
  | none => rw [hf] at h; exact absurd rfl h
  | some j =>
    have hmem := List.mem_of_find?_eq_some hf
    have hpred := List.find?_some hf
    have hb : ∀ k ∈ (List.range' 1 9).filter (fun i => i != 5),
        1 ≤ k ∧ k ≤ 9 ∧ k ≠ 5 := by decide
    obtain ⟨h1, h9, h5⟩ := hb j hmem
    simp only [Option.getD_some]
    exact ⟨h1, h9, h5, hpred⟩

/-- The Ju number `_calc_ju` returns is always 1-9 when the Yuan index
is at most 3: the fallback is 1 and every row of the 24-entry table
holds three numbers 1-9. -/
lemma calcJu_range (jq : String) (y : Nat) (hy : y ≤ 3) :
    1 ≤ (calcJu jq y).2 ∧ (calcJu jq y).2 ≤ 9 := by
  unfold calcJu
  cases hl : JU_MAP.lookup jq with
  | none =>
    constructor
    · show 1 ≤ 1
      omega
    · show (1 : Nat) ≤ 9
      omega
  | some l =>
    have hmem := lookup_snd_mem hl
    have hall : ∀ r ∈ JU_MAP.map Prod.snd, ∀ i : Fin 3,
        1 ≤ r.getD i.val 0 ∧ r.getD i.val 0 ≤ 9 := by decide
    exact hall l hmem ⟨y - 1, by omega⟩

/-- The Yuan index `_calc_base_info` computes is 1, 2 or 3. -/
lemma calcBase_yuanIdx : ∀ (dG : Fin 10) (dZ : Fin 12),
    1 ≤ (calcBase dG.val dZ.val).yuanIdx ∧
    (calcBase dG.val dZ.val).yuanIdx ≤ 3 := by decide

/-- The center palace's record under a successful lodging: the lodged
palace's heaven stem, star, door, deity and markers are copied verbatim,
while the earth stem stays the center's own. -/
lemma palaceEntry_center (P : Plates) (hp : Option Nat)
    (ep : List (Option Nat)) (L : Nat) (hnz : L ≠ 0) :
    palaceEntry P hp ep L 5 =
      { palaceName := PALACE_NAMES.getD 5 "", earthStem := getSD P.earth 5,
        heavenStem := getSD P.heavenStem L, star := getSD P.heaven L,
        door := getSD P.man L, deity := getSD P.deity L,
        markers := (if hp == some L then ["馬"] else []) ++
          (if ep.contains (some L) then ["空"] else []),
        allSymbols := [getSD P.heavenStem L, getSD P.man L, getSD P.deity L,
          getSD P.heaven L, getSD P.earth 5] } := by
  simp only [palaceEntry]
  rw [if_pos]
  refine ⟨?_, hnz⟩
  trivial

/-- A non-center palace's record keeps the palace's own plate entries. -/
lemma palaceEntry_other (P : Plates) (hp : Option Nat)
    (ep : List (Option Nat)) (L i : Nat) (hne : i ≠ 5) :
    palaceEntry P hp ep L i =
      { palaceName := PALACE_NAMES.getD i "", earthStem := getSD P.earth i,
        heavenStem := getSD P.heavenStem i, star := getSD P.heaven i,
        door := getSD P.man i, deity := getSD P.deity i,
        markers := (if hp == some i then ["馬"] else []) ++
          (if ep.contains (some i) then ["空"] else []),
        allSymbols := [getSD P.heavenStem i, getSD P.man i, getSD P.deity i,
          getSD P.heaven i, getSD P.earth i] } := by
  simp only [palaceEntry]
  rw [if_neg (fun hc => hne hc.1)]

-- ## Claim C7

/-- C7: a solar-term name absent from the 24-entry Ju table is not an
error: for every valid day and hour pillar the chart is still generated,
with the fallback Ju number 1 and all 9 palaces present. -/
theorem C7_unmapped_solar_term :
    ∀ (jq : String), JU_MAP.lookup jq = none →
    ∀ (dayG : Fin 10) (dayZ : Fin 12) (g : Fin 10) (z : Fin 12),
    z.val % 2 = g.val % 2 →
    ∃ C, generateChart jq dayG.val dayZ.val g.val z.val = some C ∧
      C.juNum = 1 ∧ C.palaces.map Prod.fst = List.range' 1 9 := by
  intro jq hnone dayG dayZ g z hpar
  have hju : (calcJu jq (calcBase dayG.val dayZ.val).yuanIdx).2 = 1 := by
    unfold calcJu
    rw [hnone]
  obtain ⟨P, hP0⟩ := generatePlates_isSome (YANG_DUN_JQ.contains jq)
    (Nat.le_refl 1) (by omega) g.isLt z.isLt hpar
  have hP : generatePlates (calcJu jq (calcBase dayG.val dayZ.val).yuanIdx).2
      (calcJu jq (calcBase dayG.val dayZ.val).yuanIdx).1 g.val z.val =
      some P := by
    rw [hju]
    exact hP0
  have hC : generateChart jq dayG.val dayZ.val g.val z.val = some
      { solarTerm := jq, yuan := (calcBase dayG.val dayZ.val).yuan,
        yinYang := (calcJu jq (calcBase dayG.val dayZ.val).yuanIdx).1,
        juNum := (calcJu jq (calcBase dayG.val dayZ.val).yuanIdx).2,
        xunShou := P.xunShou, zhiFu := P.zhiFu, zhiShi := P.zhiShi,
        horseStar := calcHorse (DI_ZHI.getD z.val ""),
        emptyDeath := calcEmptyDeath g.val z.val,
        palaces := formatOutput P (calcHorse (DI_ZHI.getD z.val ""))
          (calcEmptyDeath g.val z.val) } := by
    rw [generateChart_map, hP]
    rfl
  exact ⟨_, hC, hju, formatOutput_keys P _ _⟩

/-- C7 witness: the statement instantiated at the traditional spelling
驚蟄 (absent from the table) and a 甲子 day and hour. -/
theorem C7_unmapped_solar_term_witness :
    JU_MAP.lookup "驚蟄" = none ∧
    ∃ C, generateChart "驚蟄" 0 0 0 0 = some C ∧
      C.juNum = 1 ∧ C.palaces.map Prod.fst = List.range' 1 9 :=
  ⟨by decide, C7_unmapped_solar_term "驚蟄" (by decide)
    ⟨0, by decide⟩ ⟨0, by decide⟩ ⟨0, by decide⟩ ⟨0, by decide⟩ (by decide)⟩

-- ## Claim C2

/-- C2 counterexample: in the chart generated for solar term 冬至 with a
甲子 day pillar and 甲子 hour pillar, no non-center palace's earth stem
equals palace 5's earth stem, and no non-center palace's record is
byte-identical to palace 5's record — the lodged palace is neither found
by earth-stem matching nor copied as a byte-identical whole. -/
theorem C2_counterexample :
    ∃ C, generateChart "冬至" 0 0 0 0 = some C ∧
      ∃ d, C.palaces.lookup 5 = some d ∧
        ∀ e ∈ C.palaces, e.1 ≠ 5 →
          e.2.earthStem ≠ d.earthStem ∧ e.2 ≠ d := by decide

/-- C2 (amended): for every solar-term name and valid day and hour
pillars, palace 5 of the generated chart copies the heaven stem, star,
door, deity and markers of some non-center palace verbatim; that palace
is found by heaven-stem containment of the center's earth stem, and its
earth stem always differs from palace 5's. -/
theorem C2_lodged_bundle :
    ∀ (jq : String) (dayG : Fin 10) (dayZ : Fin 12) (g : Fin 10) (z : Fin 12),
    z.val % 2 = g.val % 2 →
    ∃ C, generateChart jq dayG.val dayZ.val g.val z.val = some C ∧
      ∃ d, C.palaces.lookup 5 = some d ∧
      ∃ e ∈ C.palaces, e.1 ≠ 5 ∧
        pyIn d.earthStem e.2.heavenStem = true ∧
        d.heavenStem = e.2.heavenStem ∧ d.star = e.2.star ∧
        d.door = e.2.door ∧ d.deity = e.2.deity ∧
        d.markers = e.2.markers ∧ d.earthStem ≠ e.2.earthStem := by
  intro jq dayG dayZ g z hpar
  obtain ⟨hju1, hju9⟩ := calcJu_range jq (calcBase dayG.val dayZ.val).yuanIdx
    (calcBase_yuanIdx dayG dayZ).2
  obtain ⟨P, hP0⟩ := generatePlates_isSome (YANG_DUN_JQ.contains jq) hju1 hju9
    g.isLt z.isLt hpar
  have F := plates_facts hju1 hju9 g.isLt z.isLt hP0
  have hP : generatePlates (calcJu jq (calcBase dayG.val dayZ.val).yuanIdx).2
      (calcJu jq (calcBase dayG.val dayZ.val).yuanIdx).1 g.val z.val =
      some P := hP0
  obtain ⟨hL1, hL9, hL5, hpy⟩ := findLodged_spec P.heavenStem (getSD P.earth 5)
    F.lodge_nz
  have hC : generateChart jq dayG.val dayZ.val g.val z.val = some
      { solarTerm := jq, yuan := (calcBase dayG.val dayZ.val).yuan,
        yinYang := (calcJu jq (calcBase dayG.val dayZ.val).yuanIdx).1,
        juNum := (calcJu jq (calcBase dayG.val dayZ.val).yuanIdx).2,
        xunShou := P.xunShou, zhiFu := P.zhiFu, zhiShi := P.zhiShi,
        horseStar := calcHorse (DI_ZHI.getD z.val ""),
        emptyDeath := calcEmptyDeath g.val z.val,
        palaces := formatOutput P (calcHorse (DI_ZHI.getD z.val ""))
          (calcEmptyDeath g.val z.val) } := by
    rw [generateChart_map, hP]
    rfl
  have hlook := formatOutput_lookup P (calcHorse (DI_ZHI.getD z.val ""))
    (calcEmptyDeath g.val z.val) 5 (by omega) (by omega)
  have hLmem : findLodged P.heavenStem (getSD P.earth 5) ∈ List.range' 1 9 := by
    have hre : List.range' 1 9 = [1, 2, 3, 4, 5, 6, 7, 8, 9] := rfl
    rw [hre]
    simp only [List.mem_cons, List.not_mem_nil, or_false]
    omega
  have hemem : (findLodged P.heavenStem (getSD P.earth 5),
      palaceEntry P
        (BRANCH_TO_PALACE.lookup (calcHorse (DI_ZHI.getD z.val "")))
        ((calcEmptyDeath g.val z.val).toList.map
          (fun c => BRANCH_TO_PALACE.lookup c.toString))
        (findLodged P.heavenStem (getSD P.earth 5))
        (findLodged P.heavenStem (getSD P.earth 5))) ∈
      formatOutput P (calcHorse (DI_ZHI.getD z.val ""))
        (calcEmptyDeath g.val z.val) := by
    show _ ∈ (List.range' 1 9).map (fun i => (i,
      palaceEntry P
        (BRANCH_TO_PALACE.lookup (calcHorse (DI_ZHI.getD z.val "")))
        ((calcEmptyDeath g.val z.val).toList.map
          (fun c => BRANCH_TO_PALACE.lookup c.toString))
        (findLodged P.heavenStem (getSD P.earth 5)) i))
    exact List.mem_map_of_mem _ hLmem
  have hd := palaceEntry_center P
    (BRANCH_TO_PALACE.lookup (calcHorse (DI_ZHI.getD z.val "")))
    ((calcEmptyDeath g.val z.val).toList.map
      (fun c => BRANCH_TO_PALACE.lookup c.toString))
    (findLodged P.heavenStem (getSD P.earth 5)) F.lodge_nz
  have he2 := palaceEntry_other P
    (BRANCH_TO_PALACE.lookup (calcHorse (DI_ZHI.getD z.val "")))
    ((calcEmptyDeath g.val z.val).toList.map
      (fun c => BRANCH_TO_PALACE.lookup c.toString))
    (findLodged P.heavenStem (getSD P.earth 5))
    (findLodged P.heavenStem (getSD P.earth 5)) hL5
  refine ⟨_, hC, _, hlook, _, hemem, hL5, ?_, ?_, ?_, ?_, ?_, ?_, ?_⟩
  · rw [hd, he2]
    exact hpy
  · rw [hd, he2]
  · rw [hd, he2]
  · rw [hd, he2]
  · rw [hd, he2]
  · rw [hd, he2]
  · rw [hd, he2]
    exact F.center_ne (findLodged P.heavenStem (getSD P.earth 5)) hL1 hL9 hL5

/-- C2 witness: the amended statement instantiated at solar term 夏至
with a 甲子 day pillar and a 戊辰 hour pillar. -/
theorem C2_lodged_bundle_witness :
    ∃ C, generateChart "夏至" 0 0 4 4 = some C ∧
      ∃ d, C.palaces.lookup 5 = some d ∧
      ∃ e ∈ C.palaces, e.1 ≠ 5 ∧
        pyIn d.earthStem e.2.heavenStem = true ∧
        d.heavenStem = e.2.heavenStem ∧ d.star = e.2.star ∧
        d.door = e.2.door ∧ d.deity = e.2.deity ∧
        d.markers = e.2.markers ∧ d.earthStem ≠ e.2.earthStem :=
  C2_lodged_bundle "夏至" ⟨0, by decide⟩ ⟨0, by decide⟩ ⟨4, by decide⟩
    ⟨4, by decide⟩ (by decide)

-- ## Claim C9

/-- C9: every outcome of `qmdj_chart_api` is a returned value — a chart
from a successful run, or one of exactly two structured error results:
the fixed invalid-timestamp message on a failed parse, or the run's
exception message behind a fixed header; no exception escapes to the
caller. -/
theorem C9_structured_api :
    ∀ (parsed : Option CalendarInfo) (run : CalendarInfo → Except String Chart)
      (r : ApiResult), qmdjChartApi parsed run = r →
    (∃ c, r = ApiResult.chart c ∧ ∃ info, parsed = some info ∧
      run info = Except.ok c) ∨
    (parsed = none ∧ r = ApiResult.error
      "Invalid timestamp format. Use ISO 8601 (e.g., 2023-10-27T10:00:00)") ∨
    (∃ info e, parsed = some info ∧ run info = Except.error e ∧
      r = ApiResult.error ("Chart generation failed: " ++ e)) := by
  intro parsed run r hr
  cases parsed with
  | none =>
    right; left
    exact ⟨rfl, hr.symm⟩
  | some info =>
    have hr2 : (match run info with
        | Except.ok c => ApiResult.chart c
        | Except.error e =>
          ApiResult.error ("Chart generation failed: " ++ e)) = r := hr
    cases hrun : run info with
    | ok c =>
      rw [hrun] at hr2
      left
      exact ⟨c, hr2.symm, info, rfl, hrun⟩
    | error e =>
      rw [hrun] at hr2
      right; right
      exact ⟨info, e, rfl, hrun, hr2.symm⟩

/-- C9 witness: a run whose chart generation raises — here a
parity-invalid hour pillar, whose dict indexing raises a KeyError — is
answered with the structured failure message. -/
theorem C9_structured_api_witness :
    (∃ c, ApiResult.error ("Chart generation failed: " ++ "KeyError") =
        ApiResult.chart c ∧
      ∃ info, (some (⟨"冬至", 0, 0, 0, 1⟩ : CalendarInfo)) = some info ∧
        runGenerate info = Except.ok c) ∨
    ((some (⟨"冬至", 0, 0, 0, 1⟩ : CalendarInfo)) = none ∧
      ApiResult.error ("Chart generation failed: " ++ "KeyError") =
        ApiResult.error
          "Invalid timestamp format. Use ISO 8601 (e.g., 2023-10-27T10:00:00)") ∨
    (∃ info e, (some (⟨"冬至", 0, 0, 0, 1⟩ : CalendarInfo)) = some info ∧
      runGenerate info = Except.error e ∧
      ApiResult.error ("Chart generation failed: " ++ "KeyError") =
        ApiResult.error ("Chart generation failed: " ++ e)) :=
  C9_structured_api (some ⟨"冬至", 0, 0, 0, 1⟩) runGenerate
    (ApiResult.error ("Chart generation failed: " ++ "KeyError")) (by decide)
